import Mathlib

/-!
Shallow embedding of the moderation engine of a Telegram chat bot
(`src/handlers/message_handlers.py`, `src/handlers/member_handlers.py`,
`src/handlers/admin_handlers.py`, `src/utils/text_utils.py`,
`src/utils/database.py`, `src/config.py`).

Modelling conventions:
* Outbound platform calls (delete, ban, restrict, send, unban) and
  database writes are modelled as an emitted trace of `Eff` events; the
  happy path is modelled (platform calls succeed and the bot has the
  required permissions), except where the source itself provably skips a
  call (see `handle_zalgo_violation` and the global-ban re-ban branch,
  whose notification code references an unbound `user_mention` local and
  therefore raises `NameError` inside the surrounding `try`).
* The per-(chat, user) entry of `user_moderation_tracker` is modelled
  directly as a `TrackerEntry`; a missing entry equals the freshly
  initialised one, so the map itself is not modelled.
* Python `float` timestamps are modelled as `Int`; the float ratio
  threshold of the Zalgo classifier is modelled as `ℚ`.
* Unicode NFD decomposition (an external `unicodedata` dependency) is not
  reimplemented: a decomposed text is a `List UChar`, each element being
  either a combining mark (category Mn/Mc/Me) or a base character.
* `str.lower`/`str.split` are modelled character-wise over the ASCII
  range, which is what every statement below exercises.
-/

/-- Observable side effects of the moderation engine, in the order the
source issues the underlying platform / database calls. -/
inductive Eff where
  | deleteMsg
  | purgeCached
  | platformBan
  | platformUnban
  | restrictMute (minutes : Nat)
  | sendNotice
  | logWarn
  | logMute
  | proposeGlobalBan
  | dbBanUser
  | deleteWelcomeMsg
  deriving DecidableEq, Repr

/-- One entry of `user_moderation_tracker`, keyed by (chat_id, user_id) in
the source: shared warning counter, recent messages (text, timestamp),
and the two dedicated violation counters. -/
structure TrackerEntry where
  warnings : Nat
  last_messages : List (String × Int)
  zalgo_warnings : Nat
  mimic_warnings : Nat
  deriving DecidableEq, Repr

/-- The tracker entry created on first contact:
`{'warnings': 0, 'last_messages': [], 'zalgo_warnings': 0, 'mimic_warnings': 0}`. -/
def TrackerEntry.init : TrackerEntry := ⟨0, [], 0, 0⟩

/- Configuration constants from `src/config.py`. -/

def MAX_WARNINGS : Nat := 2
def MUTE_DURATION_MINUTES : Nat := 30
def CAPS_THRESHOLD : Nat := 8
def MAX_IDENTICAL_MESSAGES_BEFORE_WARN : Nat := 3
def ZALGO_MIN_DIACRITICS : Nat := 4
def ZALGO_RATIO_THRESHOLD : ℚ := 1/2
def SPAM_WINDOW_SECONDS : Int := 60

/- ===== Text utilities (`src/utils/text_utils.py`) ===== -/

/-- Character-wise lower casing (`text.lower()`, ASCII range). -/
def str_lower (s : String) : String := String.mk (s.data.map Char.toLower)

/-- Whitespace split discarding empty fields (`text.split()`); the
accumulator holds the current word reversed. -/
def split_ws : List Char → List Char → List String
  | [], acc => if acc = [] then [] else [String.mk acc.reverse]
  | c :: cs, acc =>
    if c.isWhitespace then
      if acc = [] then split_ws cs [] else String.mk acc.reverse :: split_ws cs []
    else split_ws cs (c :: acc)

/-- `normalize_text`: lower-case, then collapse all whitespace runs to
single spaces (`" ".join(text.lower().split())`); empty input yields
empty output. -/
def normalize_text (s : String) : String :=
  if s = "" then "" else " ".intercalate (split_ws (str_lower s).data [])

/-- Does `needle` occur contiguously at the head of `hay`? -/
def substr_at : List Char → List Char → Bool
  | [], _ => true
  | _ :: _, [] => false
  | n :: ns, h :: hs => n == h && substr_at ns hs

/-- Contiguous substring search over character lists. -/
def has_substr (hay needle : List Char) : Bool :=
  match hay with
  | [] => needle.isEmpty
  | _ :: hs => substr_at needle hay || has_substr hs needle

/-- Python's `needle in hay` substring test on strings. -/
def contains_sub (hay needle : String) : Bool := has_substr hay.toList needle.toList

/-- A character of the NFD decomposition of a text: a combining
diacritical mark (Unicode category Mn, Mc or Me) or a base character. -/
inductive UChar where
  | mark
  | base
  deriving DecidableEq, Repr

/-- Number of combining marks counted by `is_zalgo_text`'s loop. -/
def markCount (chars : List UChar) : Nat := (chars.filter (· == UChar.mark)).length

/-- Number of base characters counted by `is_zalgo_text`'s loop. -/
def baseCount (chars : List UChar) : Nat := (chars.filter (· == UChar.base)).length

/-- `is_zalgo_text(text, min_diacritics, ratio_threshold)` over the NFD
decomposition of `text`: empty text is never Zalgo; below the minimum
mark count never Zalgo; with no base characters any positive mark count
qualifies; otherwise the mark/base ratio is compared to the threshold. -/
def is_zalgo_text (chars : List UChar) (min_diacritics : Nat) (ratio_threshold : ℚ) : Bool :=
  if chars = [] then false
  else if markCount chars < min_diacritics then false
  else if baseCount chars = 0 then decide (0 < markCount chars)
  else decide (ratio_threshold ≤ (markCount chars : ℚ) / (baseCount chars : ℚ))

/- ===== Message moderation (`src/handlers/message_handlers.py`) ===== -/

/-- Uppercase Latin or Cyrillic letter, the regex `[A-ZА-ЯЁ]`. -/
def is_upper_letter (c : Char) : Bool :=
  (65 ≤ c.toNat && c.toNat ≤ 90) || (1040 ≤ c.toNat && c.toNat ≤ 1071) || c.toNat == 1025

/-- Count of uppercase letters in the message (`re.findall` length). -/
def count_caps (s : String) : Nat := (s.toList.filter is_upper_letter).length

/-- `_issue_warning_and_mute_if_needed`: increment the shared warning
counter; at `MAX_WARNINGS` restrict the user for `MUTE_DURATION_MINUTES`
minutes, reset the counter and log the mute, otherwise post a warning
notice and log the warning. -/
def issue_warning_and_mute_if_needed (t : TrackerEntry) : TrackerEntry × List Eff :=
  if MAX_WARNINGS ≤ t.warnings + 1 then
    ({ t with warnings := 0 },
     [Eff.restrictMute MUTE_DURATION_MINUTES, Eff.sendNotice, Eff.logMute])
  else
    ({ t with warnings := t.warnings + 1 }, [Eff.sendNotice, Eff.logWarn])

/-- Effects of the second-offense branch of `_handle_zalgo_violation`:
purge the cached messages, then issue the platform ban.  The follow-up
notification and global-ban proposal are skipped because the source
references the unbound local `user_mention`, raising `NameError` inside
the `try` block right after the ban call. -/
def zalgo_repeat_ban_effs : List Eff := [Eff.purgeCached, Eff.platformBan]

/-- `_handle_zalgo_violation`: bump the dedicated `zalgo_warnings`
counter; more than one offense bans (purge first, then ban), the first
offense posts a standalone warning notice. -/
def handle_zalgo_violation (t : TrackerEntry) : TrackerEntry × List Eff :=
  if 1 < t.zalgo_warnings + 1 then
    ({ t with zalgo_warnings := t.zalgo_warnings + 1 }, zalgo_repeat_ban_effs)
  else
    ({ t with zalgo_warnings := t.zalgo_warnings + 1 }, [Eff.sendNotice])

/-- `_handle_mimicking_violation`: bump the dedicated `mimic_warnings`
counter; more than one offense mutes for `MUTE_DURATION_MINUTES` minutes
and resets the counter to zero, the first offense posts a warning. -/
def handle_mimicking_violation (t : TrackerEntry) : TrackerEntry × List Eff :=
  if 1 < t.mimic_warnings + 1 then
    ({ t with mimic_warnings := 0 },
     [Eff.restrictMute MUTE_DURATION_MINUTES, Eff.sendNotice])
  else
    ({ t with mimic_warnings := t.mimic_warnings + 1 }, [Eff.sendNotice])

/-- `_check_bot_mimicking`: nothing to do on empty text or an empty/absent
per-chat bot message cache; on a cache hit of the normalized text, delete
the message and escalate. `none` means "not handled". -/
def check_bot_mimicking (botCache : List String) (message_text : String)
    (t : TrackerEntry) : Option (TrackerEntry × List Eff) :=
  if message_text = "" then none
  else if botCache = [] then none
  else if botCache.contains (normalize_text message_text) then
    let r := handle_mimicking_violation t
    some (r.1, Eff.deleteMsg :: r.2)
  else none

/-- Effects of `_ban_for_word`: the platform ban is issued first
(`revoke_messages=True`), the cached-message purge follows as a fallback,
then notice, global-ban proposal and the database ban record. -/
def ban_for_word_effs : List Eff :=
  [Eff.platformBan, Eff.purgeCached, Eff.sendNotice, Eff.proposeGlobalBan, Eff.dbBanUser]

/-- Effects of the link-ban branch of `check_user_message`: ban first,
cached-message purge second, then notice, proposal and database record. -/
def link_ban_effs : List Eff :=
  [Eff.platformBan, Eff.purgeCached, Eff.sendNotice, Eff.proposeGlobalBan, Eff.dbBanUser]

/-- Effects of the forwarded-advertising branch of `check_user_message`:
cached-message purge first, then the ban, notice and proposal. -/
def forward_ad_ban_effs : List Eff :=
  [Eff.purgeCached, Eff.platformBan, Eff.sendNotice, Eff.proposeGlobalBan]

/-- Effects of the global-ban re-enforcement branch of
`check_user_message`: purge first, then ban; the notification is skipped
because the source references the unbound local `user_mention`
(`NameError` caught by the surrounding `except`). -/
def global_ban_reban_effs : List Eff := [Eff.purgeCached, Eff.platformBan]

/-- Effects of `_ban_for_profile_violation`
(`src/handlers/member_handlers.py`): cached-message purge first, then the
platform ban, the chat notice and the global-ban proposal. -/
def ban_for_profile_violation_effs : List Eff :=
  [Eff.purgeCached, Eff.platformBan, Eff.sendNotice, Eff.proposeGlobalBan]

/-- The recent-message list after appending the current message and
dropping everything older than the spam window (lines 589-593 of
`message_handlers.py`). -/
def windowed_messages (t : TrackerEntry) (text : String) (now : Int) : List (String × Int) :=
  (t.last_messages ++ [(text, now)]).filter (fun m => decide (now - SPAM_WINDOW_SECONDS ≤ m.2))

/-- Number of exact-text duplicates of the current message inside the
window, the current message included. -/
def windowCnt (t : TrackerEntry) (text : String) (now : Int) : Nat :=
  ((windowed_messages t text now).filter (fun m => m.1 == text)).length

/-- `_check_spam`: empty text is ignored; otherwise append the message,
keep the window, and at `MAX_IDENTICAL_MESSAGES_BEFORE_WARN` identical
texts clear those entries, delete the message and invoke the shared
warning ladder.  The `Bool` is the "handled" result. -/
def check_spam (t : TrackerEntry) (text : String) (now : Int) :
    TrackerEntry × List Eff × Bool :=
  if text = "" then (t, [], false)
  else if MAX_IDENTICAL_MESSAGES_BEFORE_WARN ≤ windowCnt t text now then
    ((issue_warning_and_mute_if_needed
        { t with last_messages :=
            (windowed_messages t text now).filter (fun m => !(m.1 == text)) }).1,
     Eff.deleteMsg :: (issue_warning_and_mute_if_needed
        { t with last_messages :=
            (windowed_messages t text now).filter (fun m => !(m.1 == text)) }).2,
     true)
  else
    ({ t with last_messages := windowed_messages t text now }, [], false)

/-- `_check_caps`: short messages are ignored; at `CAPS_THRESHOLD`
uppercase letters delete the message and invoke the warning ladder. -/
def check_caps (t : TrackerEntry) (text : String) : TrackerEntry × List Eff × Bool :=
  if text = "" then (t, [], false)
  else if text.length < CAPS_THRESHOLD then (t, [], false)
  else if CAPS_THRESHOLD ≤ count_caps text then
    let r := issue_warning_and_mute_if_needed t
    (r.1, Eff.deleteMsg :: r.2, true)
  else (t, [], false)

/-- The environment a message event is judged in: sender flags (admin
status matters because `MODERATE_ADMINS` is false, bot status because
`MODERATE_BOTS` is false), database lookups, the per-chat bot message
cache, message metadata and the chat's link policy and banned-word
list. -/
structure MsgEnv where
  sender_is_admin : Bool
  sender_is_bot : Bool
  is_globally_banned : Bool
  is_whitelisted : Bool
  bot_message_cache : List String
  is_forward_from_public : Bool
  has_link_entity : Bool
  has_link_in_text : Bool
  link_deletion_enabled : Bool
  banned_words : List String
  deriving Repr

/-- A message event: its text (or caption), the NFD decomposition of that
text as seen by the Zalgo classifier, and its arrival time. -/
structure MsgEvent where
  text : String
  nfd : List UChar
  time : Int
  deriving Repr

/-- `check_user_message`, the content-moderation pipeline for a freshly
sent group message, in source order: admin bypass, bot bypass, global-ban
re-enforcement, whitelist bypass, bot-mimicry, forwarded advertising,
flood, caps, Zalgo, link policy, banned words. -/
def check_user_message (env : MsgEnv) (msg : MsgEvent) (t : TrackerEntry) :
    TrackerEntry × List Eff :=
  if env.sender_is_admin then (t, [])
  else if env.sender_is_bot then (t, [])
  else if env.is_globally_banned then (t, global_ban_reban_effs)
  else if env.is_whitelisted then (t, [])
  else
    match check_bot_mimicking env.bot_message_cache msg.text t with
    | some r => r
    | none =>
      if env.is_forward_from_public then (t, forward_ad_ban_effs)
      else
        let s := check_spam t msg.text msg.time
        if s.2.2 then (s.1, s.2.1)
        else
          let c := check_caps s.1 msg.text
          if c.2.2 then (c.1, c.2.1)
          else if is_zalgo_text msg.nfd ZALGO_MIN_DIACRITICS ZALGO_RATIO_THRESHOLD then
            let r := handle_zalgo_violation c.1
            (r.1, Eff.deleteMsg :: r.2)
          else if (env.has_link_entity || env.has_link_in_text)
                    && env.link_deletion_enabled then
            (c.1, link_ban_effs)
          else if msg.text = "" then (c.1, [])
          else
            match env.banned_words.find?
                (fun w => contains_sub (normalize_text msg.text) w) with
            | some _ => (c.1, Eff.deleteMsg :: ban_for_word_effs)
            | none => (c.1, [])

/-- `handle_edited_message`, the reduced pipeline for an edited group
message: admin bypass, whitelist bypass, Zalgo (shared two-strike
counter), banned words (immediate ban, no prior per-message delete). -/
def handle_edited_message (env : MsgEnv) (msg : MsgEvent) (t : TrackerEntry) :
    TrackerEntry × List Eff :=
  if msg.text = "" then (t, [])
  else if env.sender_is_admin then (t, [])
  else if env.is_whitelisted then (t, [])
  else if is_zalgo_text msg.nfd ZALGO_MIN_DIACRITICS ZALGO_RATIO_THRESHOLD then
    let r := handle_zalgo_violation t
    (r.1, Eff.deleteMsg :: r.2)
  else
    match env.banned_words.find? (fun w => contains_sub (normalize_text msg.text) w) with
    | some _ => (t, ban_for_word_effs)
    | none => (t, [])

/- ===== Join gate / captcha timeout (`src/handlers/member_handlers.py`) ===== -/

/-- Chat-member status strings of the platform API. -/
inductive MemberStatus where
  | restricted
  | member
  | left
  | kicked
  | administrator
  | creator
  deriving DecidableEq, Repr

/-- The live member state re-read by a deferred job at fire time. -/
structure MemberInfo where
  status : MemberStatus
  can_send_messages : Bool
  deriving DecidableEq, Repr

/-- `kick_unverified_member`, the deferred captcha-timeout job: re-read
the member; if no longer restricted or already allowed to send, only
clean up the challenge message; otherwise kick — ban (revoking recent
messages), purge the cached messages, immediately unban — and delete the
challenge message.  `welcome_message_id` is the challenge message id
stashed in the job data (message ids are positive, so Python truthiness
matches `Option.isSome`). -/
def kick_unverified_member (m : MemberInfo) (welcome_message_id : Option Nat) : List Eff :=
  if m.status ≠ MemberStatus.restricted ∨ m.can_send_messages then
    if welcome_message_id.isSome then [Eff.deleteWelcomeMsg] else []
  else
    [Eff.platformBan, Eff.purgeCached, Eff.platformUnban]
      ++ (if welcome_message_id.isSome then [Eff.deleteWelcomeMsg] else [])

/- ===== Background rescan (`src/handlers/admin_handlers.py`,
`scheduled_name_check`) ===== -/

/-- Per-member actions the rescan can take: run the bio check, run the
nickname check on one name field, run the avatar check (present in the
codebase as `check_user_avatar`, so its absence from the rescan is
expressible), or mark the profile as checked. -/
inductive RAct where
  | avatarCheck
  | bioCheck
  | nickCheck (value : String)
  | markChecked
  deriving DecidableEq, Repr

/-- One row of `db.get_unchecked_known_members`: a member of the chat
whose profile has never been checked (no `profile_checks` row). -/
structure MemberRow where
  user_id : Int
  username : Option String
  first_name : Option String
  last_name : Option String
  deriving DecidableEq, Repr

/-- The rescan's collaborators: the global `ADMIN_IDS` list and the
outcomes of `check_user_bio` / `check_username` ("did this check ban the
user?"). -/
structure RescanEnv where
  admin_ids : List Int
  bio_bans : Int → Bool
  nick_bans : Int → String → Bool

/-- `filter(None, [username, first_name, last_name])`: keep the fields
that are present and non-empty, in that order. -/
def fields_to_check (m : MemberRow) : List String :=
  (([m.username, m.first_name, m.last_name].filterMap id).filter (fun s => !(s == "")))

/-- The nickname loop of the rescan: check each name field in turn,
stopping after the first one that bans. -/
def try_nick_checks (env : RescanEnv) (uid : Int) : List String → List RAct
  | [] => []
  | v :: rest =>
    if env.nick_bans uid v then [RAct.nickCheck v]
    else RAct.nickCheck v :: try_nick_checks env uid rest

/-- Processing of one unchecked member by `scheduled_name_check`: global
admins are marked checked without any screening; everyone else gets the
bio check, then (unless the bio banned them) the nickname checks, and is
marked checked regardless of outcome. -/
def process_unchecked_member (env : RescanEnv) (m : MemberRow) : List RAct :=
  if env.admin_ids.contains m.user_id then [RAct.markChecked]
  else
    (RAct.bioCheck ::
      (if env.bio_bans m.user_id then []
       else try_nick_checks env m.user_id (fields_to_check m)))
      ++ [RAct.markChecked]

/-- The per-chat body of `scheduled_name_check`: process every enumerated
unchecked member in order. -/
def scheduled_name_check_chat (env : RescanEnv) (unchecked_members : List MemberRow) :
    List RAct :=
  (unchecked_members.map (process_unchecked_member env)).flatten

/- ===== Global-ban registry (`src/utils/database.py`) ===== -/

/-- One row of the `banned_users` table. -/
structure BanRecord where
  user_id : Int
  username : Option String
  first_name : Option String
  last_name : Option String
  reason : String
  admin_id : Int
  is_active : Bool
  deriving DecidableEq, Repr

/-- The `WHERE user_id = ? AND is_active = 1` predicate. -/
def BanRecord.activeFor (r : BanRecord) (uid : Int) : Bool :=
  r.user_id == uid && r.is_active

/-- Number of active global-ban rows for a user. -/
def countActive (tbl : List BanRecord) (uid : Int) : Nat :=
  (tbl.filter (fun r => r.activeFor uid)).length

/-- `db.ban_user`: refuse (table unchanged, `False`) when an active row
for the user already exists, otherwise insert a fresh active row and
return `True`.  The moderation-log side write is outside this model. -/
def ban_user (tbl : List BanRecord) (uid : Int) (reason : String) (admin_id : Int)
    (username first_name last_name : Option String) : List BanRecord × Bool :=
  if tbl.any (fun r => r.activeFor uid) then (tbl, false)
  else (tbl ++ [⟨uid, username, first_name, last_name, reason, admin_id, true⟩], true)

/-- `db.unban_user`: flip `is_active` to 0 on every active row of the
user (an `UPDATE`, not a `DELETE`); return whether any row changed
(`SELECT changes() > 0`). -/
def unban_user (tbl : List BanRecord) (uid : Int) : List BanRecord × Bool :=
  (tbl.map (fun r => if r.activeFor uid then { r with is_active := false } else r),
   decide (0 < (tbl.filter (fun r => r.activeFor uid)).length))

/- ===== Derived definitions and concrete inputs used by the theorems ===== -/

/-- Whitelisted, not globally banned sender whose message trips every
content detector at once: mimics a cached bot message, is a forward from
a public channel, carries link entities under an enabled link ban, and
contains a banned word. -/
def envC2 : MsgEnv := ⟨false, false, false, true, ["bad"], true, true, true, true, ["bad"]⟩

/-- The C2 witness message: banned word as text, heavily obfuscated
decomposition. -/
def msgC2 : MsgEvent := ⟨"bad", List.replicate 8 UChar.mark, 0⟩

/-- `n` successive invocations of the shared warning ladder. -/
def iterateWarnings : Nat → TrackerEntry → TrackerEntry
  | 0, t => t
  | n + 1, t => (issue_warning_and_mute_if_needed (iterateWarnings n t)).1

/-- Tracker of a user with one prior obfuscation offense. -/
def tC5 : TrackerEntry := ⟨0, [], 1, 0⟩

/-- Ordinary sender environment with an empty banned-word list. -/
def envC5 : MsgEnv := ⟨false, false, false, false, [], false, false, false, false, []⟩

/-- An edited message whose decomposition is four combining marks. -/
def msgC5 : MsgEvent := ⟨"x", List.replicate 4 UChar.mark, 0⟩

/-- Number of tracked recent messages with exactly the given text. -/
def spamCount (t : TrackerEntry) (text : String) : Nat :=
  (t.last_messages.filter (fun m => m.1 == text)).length

/-- `n` successive deliveries of the same text at the same instant. -/
def spamIter (text : String) (now : Int) : Nat → TrackerEntry → TrackerEntry
  | 0, t => t
  | n + 1, t => (check_spam (spamIter text now n t) text now).1

/-- `n` successive mimicry violations of the same (room, user). -/
def mimicIter : Nat → TrackerEntry → TrackerEntry
  | 0, t => t
  | n + 1, t => (handle_mimicking_violation (mimicIter n t)).1

/-- Environment whose bot message cache holds the text "hi". -/
def envC7 : MsgEnv := ⟨false, false, false, false, ["hi"], false, false, false, false, []⟩

/-- A user message repeating the cached bot message "hi". -/
def msgC7 : MsgEvent := ⟨"hi", [], 0⟩

/-- Member row the C9 counterexample screens: a plain, never-checked,
non-admin member. -/
def mC9 : MemberRow := ⟨5, some "bob", none, none⟩

/-- Rescan environment of the C9 counterexample: no global admins, no
check bans anyone. -/
def envC9 : RescanEnv := ⟨[], fun _ => false, fun _ _ => false⟩

/-- Rescan environment whose only global admin is user 9. -/
def envC9w : RescanEnv := ⟨[9], fun _ => false, fun _ _ => false⟩

/-- An enumerated member who is that global admin. -/
def mC9w : MemberRow := ⟨9, some "bob", none, none⟩

/-- Concrete registry holding one active global ban for user 7. -/
def tblC10 : List BanRecord := [⟨7, none, none, none, "spam", 1, true⟩]

/- ===== Claim C1 ===== -/

/-- Index of the first occurrence of an effect in a trace. -/
def idxOfEff : List Eff → Eff → Nat
  | [], _ => 0
  | x :: xs, e => if x = e then 0 else idxOfEff xs e + 1

/-- The cached-message purge is issued strictly before the platform ban. -/
def purge_before_ban (l : List Eff) : Prop :=
  idxOfEff l Eff.purgeCached < idxOfEff l Eff.platformBan

/-- The platform ban is issued strictly before the cached-message purge. -/
def ban_before_purge (l : List Eff) : Prop :=
  idxOfEff l Eff.platformBan < idxOfEff l Eff.purgeCached

/-- Concrete pipeline input hitting the banned-word enforcement path:
plain non-admin, non-bot, non-banned, non-whitelisted sender, no link
policy, message "spam" with "spam" on the chat's banned-word list. -/
def envC1 : MsgEnv := ⟨false, false, false, false, [], false, false, false, false, ["spam"]⟩

/-- The message event of the C1 counterexample. -/
def msgC1 : MsgEvent := ⟨"spam", [], 0⟩

/-- C1 counterexample: on the banned-word enforcement path the platform
ban (`ban_chat_member` with `revoke_messages=True`) is issued before the
purge of the user's cached message ids, so the claimed purge-before-ban
ordering fails on this path at a concrete input. -/
theorem banned_word_ban_precedes_purge :
    (check_user_message envC1 msgC1 TrackerEntry.init).2
        = [Eff.deleteMsg, Eff.platformBan, Eff.purgeCached, Eff.sendNotice,
           Eff.proposeGlobalBan, Eff.dbBanUser]
      ∧ idxOfEff (check_user_message envC1 msgC1 TrackerEntry.init).2 Eff.platformBan
          < idxOfEff (check_user_message envC1 msgC1 TrackerEntry.init).2 Eff.purgeCached := by
  decide

/-- C1 (amended): the purge of the user's cached message ids precedes the
platform ban on the global-ban re-enforcement, forwarded-advertising,
repeated-obfuscation and banned-profile enforcement paths; on the
banned-word and link enforcement paths the platform ban is issued first
and the cached purge follows it as a fallback. -/
theorem enforcement_purge_ban_order :
    purge_before_ban global_ban_reban_effs
      ∧ purge_before_ban forward_ad_ban_effs
      ∧ purge_before_ban zalgo_repeat_ban_effs
      ∧ purge_before_ban ban_for_profile_violation_effs
      ∧ ban_before_purge ban_for_word_effs
      ∧ ban_before_purge link_ban_effs := by
  simp only [purge_before_ban, ban_before_purge]
  refine ⟨?_, ?_, ?_, ?_, ?_, ?_⟩ <;> decide

/- ===== Claim C6 ===== -/

/-- Marks in a run of marks: `markCount (replicate n mark) = n`. -/
theorem markCount_replicate (n : Nat) : markCount (List.replicate n UChar.mark) = n := by
  induction n with
  | zero => rfl
  | succ k ih =>
    rw [List.replicate_succ, markCount, List.filter_cons, if_pos (by rfl : (UChar.mark == UChar.mark) = true), List.length_cons]
    rw [markCount] at ih
    omega

/-- A run of marks has no base characters. -/
theorem baseCount_replicate_mark (n : Nat) :
    baseCount (List.replicate n UChar.mark) = 0 := by
  induction n with
  | zero => rfl
  | succ k ih =>
    rw [List.replicate_succ, baseCount, List.filter_cons, if_neg (by decide)]
    rw [baseCount] at ih
    omega

/-- C6: the obfuscation classifier returns true exactly when the
combining-mark count reaches `min_diacritics` and either there are no
base characters (then any positive mark count qualifies) or the
mark/base ratio reaches the threshold; a run of `min_diacritics` marks
over zero base characters is classified as obfuscated, and any
decomposition with `min_diacritics - 1` marks is not, regardless of
ratio. -/
theorem zalgo_classifier (min_d : Nat) (ratio : ℚ) (hmin : 1 ≤ min_d) :
    (∀ chars : List UChar,
        is_zalgo_text chars min_d ratio = true
          ↔ (min_d ≤ markCount chars ∧
              ((baseCount chars = 0 ∧ 0 < markCount chars) ∨
               (0 < baseCount chars ∧
                ratio ≤ (markCount chars : ℚ) / (baseCount chars : ℚ)))))
      ∧ is_zalgo_text (List.replicate min_d UChar.mark) min_d ratio = true
      ∧ (∀ chars : List UChar,
          markCount chars = min_d - 1 → is_zalgo_text chars min_d ratio = false) := by
  refine ⟨?_, ?_, ?_⟩
  · intro chars
    rw [is_zalgo_text]
    by_cases hc : chars = []
    · rw [if_pos hc]
      subst hc
      simp only [markCount, baseCount, List.filter_nil, List.length_nil]
      constructor
      · intro h
        exact Bool.noConfusion h
      · rintro ⟨h1, -⟩
        exact absurd hmin (by omega)
    · rw [if_neg hc]
      by_cases hd : markCount chars < min_d
      · rw [if_pos hd]
        constructor
        · intro h
          exact Bool.noConfusion h
        · rintro ⟨h1, -⟩
          exact absurd h1 (by omega)
      · rw [if_neg hd]
        push_neg at hd
        by_cases hb : baseCount chars = 0
        · rw [if_pos hb, decide_eq_true_eq]
          constructor
          · intro h
            exact ⟨hd, Or.inl ⟨hb, h⟩⟩
          · rintro ⟨-, h | h⟩
            · exact h.2
            · exact absurd h.1 (by omega)
        · rw [if_neg hb, decide_eq_true_eq]
          constructor
          · intro h
            exact ⟨hd, Or.inr ⟨Nat.pos_of_ne_zero hb, h⟩⟩
          · rintro ⟨-, h | h⟩
            · exact absurd h.1 hb
            · exact h.2
  · have hne : List.replicate min_d UChar.mark ≠ [] := by
      intro h
      have h2 := congrArg List.length h
      simp at h2
      omega
    rw [is_zalgo_text, if_neg hne, markCount_replicate, baseCount_replicate_mark]
    rw [if_neg (by omega), if_pos rfl, decide_eq_true_eq]
    omega
  · intro chars h
    by_cases hc : chars = []
    · subst hc
      rfl
    · rw [is_zalgo_text, if_neg hc, if_pos (by omega)]

/-- C6 witness: at the configured thresholds (4 marks, ratio 1/2) a run
of exactly 4 combining marks is classified as obfuscated and a
decomposition with 3 marks is not. -/
theorem zalgo_classifier_witness :
    is_zalgo_text (List.replicate ZALGO_MIN_DIACRITICS UChar.mark)
        ZALGO_MIN_DIACRITICS ZALGO_RATIO_THRESHOLD = true
      ∧ is_zalgo_text (List.replicate 3 UChar.mark ++ List.replicate 100 UChar.base)
          ZALGO_MIN_DIACRITICS ZALGO_RATIO_THRESHOLD = false :=
  ⟨(zalgo_classifier ZALGO_MIN_DIACRITICS ZALGO_RATIO_THRESHOLD (by decide)).2.1,
   (zalgo_classifier ZALGO_MIN_DIACRITICS ZALGO_RATIO_THRESHOLD (by decide)).2.2
     (List.replicate 3 UChar.mark ++ List.replicate 100 UChar.base) (by decide)⟩

/- ===== Claim C8 ===== -/

/-- C8: the deferred captcha-timeout job kicks — ban immediately followed
by unban — only when the member is, at fire time, still restricted and
without send permission; in every other live state it performs no ban or
unban and only cleans up the challenge message (when one is recorded). -/
theorem captcha_timeout_kick (m : MemberInfo) (w : Option Nat) :
    (m.status = MemberStatus.restricted → m.can_send_messages = false →
        kick_unverified_member m w
          = [Eff.platformBan, Eff.purgeCached, Eff.platformUnban]
              ++ (if w.isSome then [Eff.deleteWelcomeMsg] else []))
      ∧ ((m.status ≠ MemberStatus.restricted ∨ m.can_send_messages = true) →
          kick_unverified_member m w = (if w.isSome then [Eff.deleteWelcomeMsg] else [])
            ∧ Eff.platformBan ∉ kick_unverified_member m w
            ∧ Eff.platformUnban ∉ kick_unverified_member m w) := by
  constructor
  · intro h1 h2
    rw [kick_unverified_member, if_neg]
    simp [h1, h2]
  · intro h
    have hcond : m.status ≠ MemberStatus.restricted ∨ m.can_send_messages = true := h
    have : kick_unverified_member m w
        = (if w.isSome then [Eff.deleteWelcomeMsg] else []) := by
      rw [kick_unverified_member, if_pos]
      rcases hcond with h | h
      · exact Or.inl h
      · exact Or.inr h
    refine ⟨this, ?_, ?_⟩ <;> rw [this] <;> cases hw : w.isSome <;> simp [hw]

/-- C8 witness: a still-restricted, still-muted member with a recorded
challenge message is kicked (ban, purge, unban) and the challenge message
is deleted; a verified member only gets the cleanup. -/
theorem captcha_timeout_kick_witness :
    kick_unverified_member ⟨MemberStatus.restricted, false⟩ (some 1)
        = [Eff.platformBan, Eff.purgeCached, Eff.platformUnban]
            ++ (if (some 1 : Option Nat).isSome then [Eff.deleteWelcomeMsg] else [])
      ∧ kick_unverified_member ⟨MemberStatus.member, true⟩ (some 1)
          = (if (some 1 : Option Nat).isSome then [Eff.deleteWelcomeMsg] else []) :=
  ⟨(captcha_timeout_kick ⟨MemberStatus.restricted, false⟩ (some 1)).1 rfl rfl,
   ((captcha_timeout_kick ⟨MemberStatus.member, true⟩ (some 1)).2 (Or.inr rfl)).1⟩

/- ===== Claim C10 ===== -/

/-- After deactivation no row of the user stays active. -/
theorem countActive_unban_eq_zero (tbl : List BanRecord) (uid : Int) :
    countActive (unban_user tbl uid).1 uid = 0 := by
  rw [countActive, List.length_eq_zero, List.filter_eq_nil_iff]
  intro r hr
  rw [unban_user] at hr
  obtain ⟨s, hs, rfl⟩ := List.mem_map.mp hr
  by_cases h : s.activeFor uid = true
  · rw [if_pos h]
    simp [BanRecord.activeFor]
  · rw [if_neg h]
    simpa using h

/-- C10: `ban_user` refuses and leaves the registry unchanged when an
active global-ban row exists, never creates a second active row, and
`unban_user` deactivates the user's active rows in place — the table
keeps its length, the deactivated rows stay present, unrelated rows are
untouched — returning true exactly when there was an active row. -/
theorem global_ban_registry (tbl : List BanRecord) (uid : Int) (reason : String)
    (aid : Int) (u f l : Option String) :
    (0 < countActive tbl uid →
        ban_user tbl uid reason aid u f l = (tbl, false))
      ∧ countActive (ban_user tbl uid reason aid u f l).1 uid
          ≤ max 1 (countActive tbl uid)
      ∧ (unban_user tbl uid).1.length = tbl.length
      ∧ countActive (unban_user tbl uid).1 uid = 0
      ∧ (∀ r ∈ tbl, r.activeFor uid = true →
          { r with is_active := false } ∈ (unban_user tbl uid).1)
      ∧ (∀ r ∈ tbl, r.activeFor uid = false → r ∈ (unban_user tbl uid).1)
      ∧ ((unban_user tbl uid).2 = true ↔ 0 < countActive tbl uid) := by
  refine ⟨?_, ?_, ?_, countActive_unban_eq_zero tbl uid, ?_, ?_, ?_⟩
  · intro h
    have hany : tbl.any (fun r => r.activeFor uid) = true := by
      rw [List.any_eq_true]
      obtain ⟨r, hr⟩ := List.exists_mem_of_length_pos h
      rw [List.mem_filter] at hr
      exact ⟨r, hr.1, hr.2⟩
    rw [ban_user, if_pos hany]
  · by_cases hany : tbl.any (fun r => r.activeFor uid) = true
    · rw [ban_user, if_pos hany]
      exact le_max_right _ _
    · rw [ban_user, if_neg hany]
      have hzero : countActive tbl uid = 0 := by
        rw [countActive, List.length_eq_zero, List.filter_eq_nil_iff]
        intro r hr
        rw [List.any_eq_true] at hany
        push_neg at hany
        exact hany r hr
      rw [countActive, List.filter_append, List.length_append, ← countActive]
      rw [hzero]
      simp [BanRecord.activeFor]
  · simp [unban_user]
  · intro r hr hact
    rw [unban_user]
    exact List.mem_map.mpr ⟨r, hr, by rw [if_pos hact]⟩
  · intro r hr hact
    rw [unban_user]
    refine List.mem_map.mpr ⟨r, hr, ?_⟩
    rw [hact]
    rfl
  · rw [unban_user, countActive]
    simp

/- ===== Claim C2 ===== -/

/-- C2: a message from a whitelisted sender who is not globally banned
leaves the moderation state untouched and produces no effect at all — no
deletion, warning, mute or ban — whatever the content (mimicry, flood,
caps, obfuscation, links, banned words), on the send pipeline and on the
edited-message pipeline alike. -/
theorem whitelist_bypass (env : MsgEnv) (msg : MsgEvent) (t : TrackerEntry)
    (hb : env.is_globally_banned = false) (hw : env.is_whitelisted = true) :
    check_user_message env msg t = (t, [])
      ∧ handle_edited_message env msg t = (t, []) := by
  constructor
  · rw [check_user_message]
    split_ifs <;> simp_all
  · rw [handle_edited_message]
    split_ifs <;> simp_all

/-- C2 witness: the maximally-violating whitelisted message produces no
effects on either pipeline. -/
theorem whitelist_bypass_witness :
    check_user_message envC2 msgC2 TrackerEntry.init = (TrackerEntry.init, [])
      ∧ handle_edited_message envC2 msgC2 TrackerEntry.init = (TrackerEntry.init, []) :=
  whitelist_bypass envC2 msgC2 TrackerEntry.init rfl rfl

/- ===== Claim C3 ===== -/

/-- C3: the shared ladder increments the per-(room, user) counter on each
warning below the limit; starting from zero, the first
`MAX_WARNINGS - 1` warnings never mute, and the `MAX_WARNINGS`-th
warning issues the timed mute of `MUTE_DURATION_MINUTES` minutes and
resets the counter to zero. -/
theorem warning_ladder (t : TrackerEntry) (h : t.warnings = 0) :
    (∀ u : TrackerEntry, u.warnings + 1 < MAX_WARNINGS →
        (issue_warning_and_mute_if_needed u).1.warnings = u.warnings + 1)
      ∧ (∀ k, k + 1 < MAX_WARNINGS →
          (iterateWarnings k t).warnings = k
            ∧ ∀ m, Eff.restrictMute m ∉
                (issue_warning_and_mute_if_needed (iterateWarnings k t)).2)
      ∧ (issue_warning_and_mute_if_needed (iterateWarnings (MAX_WARNINGS - 1) t)).2
          = [Eff.restrictMute MUTE_DURATION_MINUTES, Eff.sendNotice, Eff.logMute]
      ∧ (issue_warning_and_mute_if_needed
            (iterateWarnings (MAX_WARNINGS - 1) t)).1.warnings = 0 := by
  have hstep1 : iterateWarnings (MAX_WARNINGS - 1) t = { t with warnings := 1 } := by
    simp only [MAX_WARNINGS, iterateWarnings, issue_warning_and_mute_if_needed, h]
    rw [if_neg (by omega)]
  refine ⟨?_, ?_, ?_, ?_⟩
  · intro u hu
    rw [issue_warning_and_mute_if_needed, if_neg (by omega)]
  · intro k hk
    have hk0 : k = 0 := by
      rw [MAX_WARNINGS] at hk
      omega
    subst hk0
    refine ⟨by simpa [iterateWarnings] using h, ?_⟩
    intro m
    simp [iterateWarnings, issue_warning_and_mute_if_needed, h, MAX_WARNINGS]
  · rw [hstep1, issue_warning_and_mute_if_needed, if_pos (by simp [MAX_WARNINGS])]
  · rw [hstep1, issue_warning_and_mute_if_needed, if_pos (by simp [MAX_WARNINGS])]

/-- C3 witness: from a fresh tracker, the `MAX_WARNINGS`-th ladder
invocation produces the timed-mute effects and a counter of zero. -/
theorem warning_ladder_witness :
    (issue_warning_and_mute_if_needed
        (iterateWarnings (MAX_WARNINGS - 1) TrackerEntry.init)).2
        = [Eff.restrictMute MUTE_DURATION_MINUTES, Eff.sendNotice, Eff.logMute]
      ∧ (issue_warning_and_mute_if_needed
          (iterateWarnings (MAX_WARNINGS - 1) TrackerEntry.init)).1.warnings = 0 :=
  ⟨(warning_ladder TrackerEntry.init rfl).2.2.1,
   (warning_ladder TrackerEntry.init rfl).2.2.2⟩

/- ===== Claim C5 ===== -/

/-- C5: obfuscated text escalates on the dedicated `zalgo_warnings`
two-strike counter, independent of the shared ladder: the first offense
posts a standalone warning, any further offense bans immediately; the
edited-message pipeline (non-admin, non-whitelisted, non-empty text)
consists of exactly the obfuscation check — driving the same two-strike
counter — and the banned-word check with its immediate ban, and nothing
else. -/
theorem zalgo_two_strike_and_edited_pipeline (env : MsgEnv) (msg : MsgEvent)
    (t : TrackerEntry) (ha : env.sender_is_admin = false)
    (hw : env.is_whitelisted = false) (htext : msg.text ≠ "") :
    (t.zalgo_warnings = 0 →
        handle_zalgo_violation t = ({ t with zalgo_warnings := 1 }, [Eff.sendNotice]))
      ∧ (1 ≤ t.zalgo_warnings →
          handle_zalgo_violation t
            = ({ t with zalgo_warnings := t.zalgo_warnings + 1 }, zalgo_repeat_ban_effs))
      ∧ (is_zalgo_text msg.nfd ZALGO_MIN_DIACRITICS ZALGO_RATIO_THRESHOLD = true →
          handle_edited_message env msg t
            = ((handle_zalgo_violation t).1, Eff.deleteMsg :: (handle_zalgo_violation t).2))
      ∧ (is_zalgo_text msg.nfd ZALGO_MIN_DIACRITICS ZALGO_RATIO_THRESHOLD = false →
          ∀ w, env.banned_words.find? (fun x => contains_sub (normalize_text msg.text) x)
              = some w →
            handle_edited_message env msg t = (t, ban_for_word_effs))
      ∧ (is_zalgo_text msg.nfd ZALGO_MIN_DIACRITICS ZALGO_RATIO_THRESHOLD = false →
          env.banned_words.find? (fun x => contains_sub (normalize_text msg.text) x)
              = none →
            handle_edited_message env msg t = (t, [])) := by
  refine ⟨?_, ?_, ?_, ?_, ?_⟩
  · intro h0
    rw [handle_zalgo_violation, if_neg (by omega), h0]
  · intro h1
    rw [handle_zalgo_violation, if_pos (by omega)]
  · intro hzal
    rw [handle_edited_message, if_neg htext, if_neg (by simp [ha]), if_neg (by simp [hw]),
      if_pos hzal]
  · intro hzal w hfind
    rw [handle_edited_message, if_neg htext, if_neg (by simp [ha]), if_neg (by simp [hw]),
      if_neg (by simp [hzal]), hfind]
  · intro hzal hnone
    rw [handle_edited_message, if_neg htext, if_neg (by simp [ha]), if_neg (by simp [hw]),
      if_neg (by simp [hzal]), hnone]

/-- C5 witness: an edited obfuscated message from a user with one prior
offense is deleted and escalates through the shared two-strike counter
to the immediate ban. -/
theorem zalgo_two_strike_witness :
    handle_edited_message envC5 msgC5 tC5
      = ((handle_zalgo_violation tC5).1, Eff.deleteMsg :: (handle_zalgo_violation tC5).2) :=
  (zalgo_two_strike_and_edited_pipeline envC5 msgC5 tC5 rfl rfl (by decide)).2.2.1 (by decide)

/- ===== Claim C4 ===== -/

/-- The warning ladder never touches the recent-message list. -/
theorem issue_warning_keeps_messages (u : TrackerEntry) :
    (issue_warning_and_mute_if_needed u).1.last_messages = u.last_messages := by
  rw [issue_warning_and_mute_if_needed]
  split_ifs <;> rfl

/-- Everything the window filter keeps is inside the spam window. -/
theorem windowed_time (t : TrackerEntry) (text : String) (now : Int) :
    ∀ m ∈ windowed_messages t text now, now - SPAM_WINDOW_SECONDS ≤ m.2 := by
  intro m hm
  rw [windowed_messages, List.mem_filter] at hm
  exact of_decide_eq_true hm.2

/-- Windowing a tracker whose recent messages are `j` copies of the
current message (all timestamped now) yields `j + 1` copies. -/
theorem windowed_of_replicate (text : String) (now : Int) (u : TrackerEntry) (j : Nat)
    (h : u.last_messages = List.replicate j (text, now)) :
    windowed_messages u text now = List.replicate (j + 1) (text, now) := by
  have hall : (List.replicate (j + 1) (text, now)).filter
      (fun m => decide (now - SPAM_WINDOW_SECONDS ≤ m.2))
      = List.replicate (j + 1) (text, now) := by
    apply List.filter_eq_self.mpr
    intro a ha
    have h2 := List.eq_of_mem_replicate ha
    subst h2
    rw [decide_eq_true_eq]
    show now - (60 : Int) ≤ now
    omega
  rw [windowed_messages, h, ← List.replicate_succ', hall]

/-- The duplicate count over such a tracker is `j + 1`. -/
theorem windowCnt_of_replicate (text : String) (now : Int) (u : TrackerEntry) (j : Nat)
    (h : u.last_messages = List.replicate j (text, now)) :
    windowCnt u text now = j + 1 := by
  have hall : (List.replicate (j + 1) (text, now)).filter (fun m => m.1 == text)
      = List.replicate (j + 1) (text, now) := by
    apply List.filter_eq_self.mpr
    intro a ha
    have h2 := List.eq_of_mem_replicate ha
    subst h2
    simp
  rw [windowCnt, windowed_of_replicate text now u j h, hall, List.length_replicate]

/-- One `_check_spam` step over a tracker holding `j` in-window copies of
the current text: the duplicates are cleared exactly when `j + 1` reaches
the threshold, and detection fires exactly then. -/
theorem check_spam_step_replicate (text : String) (now : Int) (u : TrackerEntry) (j : Nat)
    (ht : text ≠ "") (h : u.last_messages = List.replicate j (text, now)) :
    (check_spam u text now).1.last_messages
        = List.replicate (if 3 ≤ j + 1 then 0 else j + 1) (text, now)
      ∧ ((check_spam u text now).2.2 = true ↔ 3 ≤ j + 1) := by
  have hc := windowCnt_of_replicate text now u j h
  constructor
  · rw [check_spam, if_neg ht]
    by_cases hj : (3 : Nat) ≤ j + 1
    · rw [if_pos (show MAX_IDENTICAL_MESSAGES_BEFORE_WARN ≤ windowCnt u text now by
        rw [hc]; exact hj)]
      rw [if_pos hj]
      show (issue_warning_and_mute_if_needed
          { u with last_messages :=
              (windowed_messages u text now).filter (fun m => !(m.1 == text)) }).1.last_messages
        = List.replicate 0 (text, now)
      rw [issue_warning_keeps_messages]
      show (windowed_messages u text now).filter (fun m => !(m.1 == text))
        = List.replicate 0 (text, now)
      rw [windowed_of_replicate text now u j h, List.replicate_zero]
      apply List.filter_eq_nil_iff.mpr
      intro a ha
      have h2 := List.eq_of_mem_replicate ha
      subst h2
      simp
    · rw [if_neg (show ¬ MAX_IDENTICAL_MESSAGES_BEFORE_WARN ≤ windowCnt u text now by
        rw [hc]; exact hj)]
      rw [if_neg hj]
      show windowed_messages u text now = List.replicate (j + 1) (text, now)
      exact windowed_of_replicate text now u j h
  · rw [check_spam, if_neg ht]
    by_cases hj : (3 : Nat) ≤ j + 1
    · rw [if_pos (show MAX_IDENTICAL_MESSAGES_BEFORE_WARN ≤ windowCnt u text now by
        rw [hc]; exact hj)]
      simp [hj]
    · rw [if_neg (show ¬ MAX_IDENTICAL_MESSAGES_BEFORE_WARN ≤ windowCnt u text now by
        rw [hc]; exact hj)]
      simp [hj]

/-- C4: flood detection keeps only in-window messages; it fires exactly
when the in-window duplicate count of the current text reaches the
threshold, and then deletes the message, delegates to exactly one shared
warning-ladder invocation and clears every duplicate entry — so, sending
the same text repeatedly, the counter cycles through `n mod threshold`
and detection fires exactly once per threshold crossing. -/
theorem flood_detection (text : String) (now : Int) (t t0 : TrackerEntry)
    (ht : text ≠ "") (h0 : t0.last_messages = []) :
    (∀ m ∈ (check_spam t text now).1.last_messages, now - SPAM_WINDOW_SECONDS ≤ m.2)
      ∧ ((check_spam t text now).2.2 = true
          ↔ MAX_IDENTICAL_MESSAGES_BEFORE_WARN ≤ windowCnt t text now)
      ∧ ((check_spam t text now).2.2 = true →
          (check_spam t text now).2.1
              = Eff.deleteMsg :: (issue_warning_and_mute_if_needed
                  { t with last_messages :=
                      (windowed_messages t text now).filter (fun m => !(m.1 == text)) }).2
            ∧ spamCount (check_spam t text now).1 text = 0)
      ∧ ((check_spam t text now).2.2 = false → (check_spam t text now).2.1 = [])
      ∧ (∀ n, (spamIter text now n t0).last_messages
            = List.replicate (n % MAX_IDENTICAL_MESSAGES_BEFORE_WARN) (text, now)
          ∧ ((check_spam (spamIter text now n t0) text now).2.2 = true
              ↔ (n + 1) % MAX_IDENTICAL_MESSAGES_BEFORE_WARN = 0)) := by
  have hM : MAX_IDENTICAL_MESSAGES_BEFORE_WARN = 3 := rfl
  refine ⟨?_, ?_, ?_, ?_, ?_⟩
  · rw [check_spam, if_neg ht]
    by_cases htr : MAX_IDENTICAL_MESSAGES_BEFORE_WARN ≤ windowCnt t text now
    · rw [if_pos htr]
      intro m hm
      show now - SPAM_WINDOW_SECONDS ≤ m.2
      rw [issue_warning_keeps_messages] at hm
      exact windowed_time t text now m (List.mem_of_mem_filter hm)
    · rw [if_neg htr]
      intro m hm
      exact windowed_time t text now m hm
  · rw [check_spam, if_neg ht]
    by_cases htr : MAX_IDENTICAL_MESSAGES_BEFORE_WARN ≤ windowCnt t text now
    · rw [if_pos htr]
      simpa using htr
    · rw [if_neg htr]
      simpa using htr
  · intro htrue
    rw [check_spam, if_neg ht] at htrue ⊢
    by_cases htr : MAX_IDENTICAL_MESSAGES_BEFORE_WARN ≤ windowCnt t text now
    · rw [if_pos htr]
      refine ⟨rfl, ?_⟩
      rw [spamCount, issue_warning_keeps_messages]
      rw [List.length_eq_zero, List.filter_eq_nil_iff]
      intro m hm
      have hm2 := List.mem_filter.mp hm
      simpa using hm2.2
    · rw [if_neg htr] at htrue
      exact absurd htrue (by simp)
  · intro hfalse
    rw [check_spam, if_neg ht] at hfalse ⊢
    by_cases htr : MAX_IDENTICAL_MESSAGES_BEFORE_WARN ≤ windowCnt t text now
    · rw [if_pos htr] at hfalse
      exact absurd hfalse (by simp)
    · rw [if_neg htr]
  · have hrep : ∀ n, (spamIter text now n t0).last_messages
        = List.replicate (n % 3) (text, now) := by
      intro n
      induction n with
      | zero => simpa [spamIter] using h0
      | succ k ih =>
        rw [spamIter]
        rw [(check_spam_step_replicate text now _ (k % 3) ht ih).1]
        by_cases hk : k % 3 = 2
        · rw [if_pos (by omega), show (k + 1) % 3 = 0 by omega]
        · rw [if_neg (by omega), show (k + 1) % 3 = k % 3 + 1 by omega]
    intro n
    rw [hM]
    refine ⟨hrep n, ?_⟩
    rw [(check_spam_step_replicate text now _ (n % 3) ht (hrep n)).2]
    constructor <;> intro h3 <;> omega

/-- C4 witness: sending "a" repeatedly at one instant, the third delivery
fires detection and the cleared tracker restarts the count. -/
theorem flood_detection_witness :
    ((check_spam (spamIter "a" 0 2 TrackerEntry.init) "a" 0).2.2 = true
        ↔ (2 + 1) % MAX_IDENTICAL_MESSAGES_BEFORE_WARN = 0)
      ∧ (spamIter "a" 0 3 TrackerEntry.init).last_messages
          = List.replicate (3 % MAX_IDENTICAL_MESSAGES_BEFORE_WARN) ("a", 0) :=
  ⟨((flood_detection "a" 0 TrackerEntry.init TrackerEntry.init (by decide) rfl).2.2.2.2 2).2,
   ((flood_detection "a" 0 TrackerEntry.init TrackerEntry.init (by decide) rfl).2.2.2.2 3).1⟩

/- ===== Claim C7 ===== -/

/-- C7 counterexample: after warn (first occurrence) and mute (second
occurrence, which resets the mimicry counter), the third identical
mimicry occurrence produces only a delete and a warning notice — not the
timed mute the claim requires for every occurrence from the second
onward. -/
theorem mimicry_third_strike_counterexample :
    (check_user_message envC7 msgC7
        ((check_user_message envC7 msgC7
          ((check_user_message envC7 msgC7 TrackerEntry.init).1)).1)).2
      = [Eff.deleteMsg, Eff.sendNotice] := by
  decide

/-- C7 (amended): a message equal (normalized) to a cached bot message is
deleted; the first mimicry occurrence warns, an occurrence with a prior
un-reset offense mutes for the configured duration and resets the
dedicated counter to zero, so occurrences alternate — from a fresh
tracker the counter after `n` occurrences is `n % 2`, and even-numbered
occurrences mute while odd-numbered ones warn. -/
theorem mimicry_escalation_cycle (cache : List String) (text : String) (t : TrackerEntry)
    (hne : text ≠ "") (hnil : cache ≠ [])
    (hhit : cache.contains (normalize_text text) = true) :
    (t.mimic_warnings = 0 →
        check_bot_mimicking cache text t
          = some ({ t with mimic_warnings := 1 }, [Eff.deleteMsg, Eff.sendNotice]))
      ∧ (1 ≤ t.mimic_warnings →
          check_bot_mimicking cache text t
            = some ({ t with mimic_warnings := 0 },
                [Eff.deleteMsg, Eff.restrictMute MUTE_DURATION_MINUTES, Eff.sendNotice]))
      ∧ (t.mimic_warnings = 0 → ∀ n, (mimicIter n t).mimic_warnings = n % 2) := by
  refine ⟨?_, ?_, ?_⟩
  · intro h0
    rw [check_bot_mimicking, if_neg hne, if_neg hnil, if_pos hhit]
    simp only [handle_mimicking_violation, h0]
    rw [if_neg (by omega)]
  · intro h1
    rw [check_bot_mimicking, if_neg hne, if_neg hnil, if_pos hhit]
    simp only [handle_mimicking_violation]
    rw [if_pos (by omega)]
  · intro h0 n
    induction n with
    | zero => simpa [mimicIter] using h0
    | succ k ih =>
      rw [mimicIter, handle_mimicking_violation, ih]
      by_cases hk : k % 2 = 0
      · rw [if_neg (by omega)]
        simp
        omega
      · rw [if_pos (by omega)]
        simp
        omega

/-- C7 witness: a first mimicry occurrence of the cached text "hi" is
deleted and warned, with the dedicated counter set to one. -/
theorem mimicry_cycle_witness :
    check_bot_mimicking ["hi"] "hi" TrackerEntry.init
      = some ({ TrackerEntry.init with mimic_warnings := 1 },
          [Eff.deleteMsg, Eff.sendNotice]) :=
  (mimicry_escalation_cycle ["hi"] "hi" TrackerEntry.init (by decide) (by decide)
    (by decide)).1 rfl

/- ===== Claim C9 ===== -/

/-- The nickname loop of the rescan never runs the avatar check. -/
theorem avatar_not_in_try_nick (env : RescanEnv) (uid : Int) :
    ∀ l : List String, RAct.avatarCheck ∉ try_nick_checks env uid l := by
  intro l
  induction l with
  | nil => simp [try_nick_checks]
  | cons v rest ih =>
    rw [try_nick_checks]
    by_cases h : env.nick_bans uid v = true
    · rw [if_pos h]
      simp
    · rw [if_neg h]
      simp [ih]

/-- The rescan's per-member processing never runs the avatar check. -/
theorem avatar_not_in_process (env : RescanEnv) (m : MemberRow) :
    RAct.avatarCheck ∉ process_unchecked_member env m := by
  rw [process_unchecked_member]
  by_cases h : env.admin_ids.contains m.user_id = true
  · rw [if_pos h]
    simp
  · rw [if_neg h]
    by_cases hbio : env.bio_bans m.user_id = true
    · rw [if_pos hbio]
      simp
    · rw [if_neg hbio]
      simp [avatar_not_in_try_nick env m.user_id]

/-- When no name field bans, every name field is checked in turn. -/
theorem mem_try_nick (env : RescanEnv) (uid : Int) :
    ∀ l : List String, (∀ x ∈ l, env.nick_bans uid x = false) →
      ∀ v ∈ l, RAct.nickCheck v ∈ try_nick_checks env uid l := by
  intro l
  induction l with
  | nil => simp
  | cons x rest ih =>
    intro hall v hv
    rw [try_nick_checks, if_neg (by simp [hall x (by simp)])]
    rcases List.mem_cons.mp hv with rfl | hv2
    · exact List.mem_cons_self _ _
    · exact List.mem_cons_of_mem _ (ih (fun y hy => hall y (List.mem_cons_of_mem _ hy)) v hv2)

/-- C9 counterexample: the rescan runs the bio check on the enumerated
non-admin member and marks the member checked, but never runs the avatar
check the claim includes in the screening. -/
theorem rescan_no_avatar_counterexample :
    RAct.bioCheck ∈ scheduled_name_check_chat envC9 [mC9]
      ∧ RAct.markChecked ∈ scheduled_name_check_chat envC9 [mC9]
      ∧ RAct.avatarCheck ∉ scheduled_name_check_chat envC9 [mC9] := by
  decide

/-- C9 (amended): the rescan marks global administrators checked without
any screening; every other enumerated member gets the bio check and then,
unless the bio banned them, the nickname checks over the present name
fields — the avatar check is never run — and every processed member is
marked checked last, regardless of outcome. -/
theorem rescan_processing (env : RescanEnv) (m : MemberRow) :
    (env.admin_ids.contains m.user_id = true →
        process_unchecked_member env m = [RAct.markChecked])
      ∧ (process_unchecked_member env m).getLast? = some RAct.markChecked
      ∧ RAct.avatarCheck ∉ process_unchecked_member env m
      ∧ (env.admin_ids.contains m.user_id = false →
          RAct.bioCheck ∈ process_unchecked_member env m)
      ∧ (env.admin_ids.contains m.user_id = false →
          env.bio_bans m.user_id = false →
          (∀ x ∈ fields_to_check m, env.nick_bans m.user_id x = false) →
          ∀ v ∈ fields_to_check m, RAct.nickCheck v ∈ process_unchecked_member env m)
      ∧ (∀ members : List MemberRow,
          RAct.avatarCheck ∉ scheduled_name_check_chat env members) := by
  refine ⟨?_, ?_, avatar_not_in_process env m, ?_, ?_, ?_⟩
  · intro h
    rw [process_unchecked_member, if_pos h]
  · rw [process_unchecked_member]
    by_cases h : env.admin_ids.contains m.user_id = true
    · rw [if_pos h]
      rfl
    · rw [if_neg h]
      exact List.getLast?_concat _
  · intro h
    rw [process_unchecked_member, if_neg (by rw [h]; simp)]
    simp
  · intro h hbio hall v hv
    rw [process_unchecked_member, if_neg (by rw [h]; simp), if_neg (by rw [hbio]; simp)]
    simp only [List.mem_append, List.mem_cons]
    exact Or.inl (Or.inr (mem_try_nick env m.user_id (fields_to_check m) hall v hv))
  · intro members hmem
    rw [scheduled_name_check_chat] at hmem
    obtain ⟨l, hl, hal⟩ := List.mem_flatten.mp hmem
    obtain ⟨x, hx, rfl⟩ := List.mem_map.mp hl
    exact avatar_not_in_process env x hal

/-- C9 witness: the enumerated global admin is marked checked without any
screening, and the mark is the last action. -/
theorem rescan_processing_witness :
    process_unchecked_member envC9w mC9w = [RAct.markChecked]
      ∧ (process_unchecked_member envC9w mC9w).getLast? = some RAct.markChecked :=
  ⟨(rescan_processing envC9w mC9w).1 (by decide),
   (rescan_processing envC9w mC9w).2.1⟩

/-- C10 witness: re-banning user 7 over the active record leaves the
registry unchanged and fails, and unbanning leaves no active record while
keeping the table's single row. -/
theorem global_ban_registry_witness :
    ban_user tblC10 7 "again" 2 none none none = (tblC10, false)
      ∧ countActive (unban_user tblC10 7).1 7 = 0
      ∧ (unban_user tblC10 7).1.length = tblC10.length :=
  ⟨(global_ban_registry tblC10 7 "again" 2 none none none).1 (by decide),
   (global_ban_registry tblC10 7 "again" 2 none none none).2.2.2.1,
   (global_ban_registry tblC10 7 "again" 2 none none none).2.2.1⟩
